import Mathlib

/-!
Verification of the Remootio websocket API client (`RemootioDevice`,
src/lib/index.d.ts together with its compiled implementation).

The client is embedded shallowly: the mutable fields of the `RemootioDevice`
class become a `DeviceState` structure, and every handler or method of the
class becomes a pure function from `DeviceState` (plus its inputs) to a new
`DeviceState` together with a list of externally observable `Effect`s
(events emitted through the `EventEmitter`, console warnings, websocket
writes, timer arm/cancel operations, socket close/terminate calls).

Websocket internals are abstracted to two booleans: `wsPresent` models
`websocketClient != undefined` and `wsOpen` models
`websocketClient.readyState == WebSocket.OPEN`.  Timer handles are modelled
as booleans (armed / not armed).  JSON parsing and the `apicrypto` module
are external to src, so the inbound-message handler takes the parse and
decrypt outcomes as parameters (`InboundMsg`, `Option DecryptedPayload`).
-/

namespace Remootio

/-- Action types of the Remootio API (the `type` field of an action). -/
inductive ActionType where
  | QUERY
  | TRIGGER
  | TRIGGER_SECONDARY
  | OPEN
  | CLOSE
  | RESTART
  deriving DecidableEq

/-- An unencrypted action payload, as passed to `sendEncryptedFrame`. -/
structure RemootioAction where
  type : ActionType
  id : Nat
  duration : Option Nat
  deriving DecidableEq

/-- Plaintext frames the client can send (`sendHello`, `sendPing`, `authenticate`). -/
structure SentFrame where
  frameType : String
  deriving DecidableEq

/-- Events emitted by the `RemootioDevice` EventEmitter. -/
inductive Event where
  | connecting
  | connected
  | authenticated
  | disconnect
  | error (msg : String)
  | outgoingmessage
  | incomingmessage
  deriving DecidableEq

/-- Externally observable side effects of a handler or method call. -/
inductive Effect where
  | emit (e : Event)
  | warn (msg : String)
  | wsSendPlain (f : SentFrame)
  | wsSendEncrypted (p : RemootioAction)
  | wsTerminate
  | wsClose
  | setIntervalPing
  | clearIntervalPing
  | setTimeoutWatchdog
  | clearTimeoutWatchdog
  | connectInvoked (autoReconnect : Bool) (port : Nat)
  deriving DecidableEq

/-- The `challenge` member of a decrypted payload. -/
structure ChallengeData where
  sessionKey : String
  initialActionId : Nat
  deriving DecidableEq

/-- The `response` member of a decrypted payload.  `id` and `type` are
optional because the handler explicitly tests `response.id != undefined`
and compares `response.type` against the string QUERY. -/
structure ResponseData where
  id : Option Nat
  type : Option ActionType
  deriving DecidableEq

/-- A successfully decrypted payload of an ENCRYPTED frame.  The handler
shape-sniffs with `in` checks, so both members may be present at once. -/
structure DecryptedPayload where
  challenge : Option ChallengeData
  response : Option ResponseData
  deriving DecidableEq

/-- Mutable fields of the `RemootioDevice` class. -/
structure DeviceState where
  apiSecretKey : String
  apiAuthKey : String
  deviceIp : String
  wsPresent : Bool
  wsOpen : Bool
  apiSessionKey : Option String
  lastActionId : Option Nat
  autoReconnect : Bool
  port : Nat
  sendPingMessageEveryXMs : Nat
  sendPingMessageIntervalHandle : Bool
  pingReplyTimeoutXMs : Nat
  pingReplyTimeoutHandle : Bool
  waitingForAuthenticationQueryActionResponse : Option Bool
  deriving DecidableEq

/-- Warning text of `sendFrame` / `sendEncryptedFrame` when the websocket is not open. -/
def wsNotConnectedMsg : String := "The websocket client is not connected"

/-- Warning text of `sendEncryptedFrame` when no session key is present. -/
def authFirstMsg : String := "Authenticate session first to send this message"

/-- Warning text of the action helpers and the response handler when `lastActionId` is undefined. -/
def lastActionIdUndefinedMsg : String := "Unexpected error - lastActionId is undefined"

/-- Error text emitted when decryption of an ENCRYPTED frame fails. -/
def decryptFailedMsg : String := "Authentication or encryption error"

/-- Stand-in for the exception object forwarded by the catch clause of the
message handler when `JSON.parse` throws. -/
def parseErrorMsg : String := "JSON parse error"

/-- Prefix of the keepalive watchdog error message. -/
def watchdogMsgPrefix : String := "No response for PING message in "

/-- Suffix of the keepalive watchdog error message. -/
def watchdogMsgSuffix : String := " ms. Connection is broken."

/-- The keepalive watchdog error message of a given device state. -/
def watchdogMsg (s : DeviceState) : String :=
  watchdogMsgPrefix ++ toString s.pingReplyTimeoutXMs ++ watchdogMsgSuffix

/-- `RemootioDevice.prototype.sendFrame`: stringify and send if the
websocket client exists and is open, else only warn. -/
def sendFrame (s : DeviceState) (frameJson : SentFrame) : List Effect :=
  if s.wsPresent ∧ s.wsOpen then
    [Effect.wsSendPlain frameJson, Effect.emit Event.outgoingmessage]
  else
    [Effect.warn wsNotConnectedMsg]

/-- `RemootioDevice.prototype.sendEncryptedFrame`: requires an open
websocket and a session key; otherwise only a console warning. -/
def sendEncryptedFrame (s : DeviceState) (unencryptedPayload : RemootioAction) : List Effect :=
  if s.wsPresent ∧ s.wsOpen then
    match s.apiSessionKey with
    | some _ =>
      [Effect.wsSendEncrypted unencryptedPayload, Effect.emit Event.outgoingmessage]
    | none => [Effect.warn authFirstMsg]
  else
    [Effect.warn wsNotConnectedMsg]

/-- The action-id successor used by every action helper:
`(this.lastActionId + 1) % 0x7fffffff`. -/
def nextActionId (counter : Nat) : Nat :=
  (counter + 1) % 0x7fffffff

/-- `RemootioDevice.prototype.sendQuery`: send a QUERY action with id
`nextActionId lastActionId`, or warn when `lastActionId` is undefined. -/
def sendQuery (s : DeviceState) : List Effect :=
  match s.lastActionId with
  | some c => sendEncryptedFrame s (RemootioAction.mk ActionType.QUERY (nextActionId c) none)
  | none => [Effect.warn lastActionIdUndefinedMsg]

/-- The PING frame type string. -/
def pingFrameType : String := "PING"

/-- The HELLO frame type string. -/
def helloFrameType : String := "HELLO"

/-- `RemootioDevice.prototype.sendPing`. -/
def sendPing (s : DeviceState) : List Effect :=
  sendFrame s (SentFrame.mk pingFrameType)

/-- The body of `RemootioDevice.prototype.connect` up to and including the
emit of the connecting event: set `autoReconnect` when requested (never
cleared here), take the port if truthy, reset all session data, replace the
websocket client by a fresh, not yet open one. -/
def connectBody (s : DeviceState) (autoReconnect : Bool) (port : Nat) : DeviceState × List Effect :=
  let s1 := if autoReconnect then { s with autoReconnect := true } else s
  let s2 := if port ≠ 0 then { s1 with port := port } else s1
  let s3 := { s2 with
    apiSessionKey := none
    lastActionId := none
    waitingForAuthenticationQueryActionResponse := none
    wsPresent := true
    wsOpen := false }
  (s3, [Effect.emit Event.connecting])

/-- The close handler registered by `connect`: the transport is now closed
(`wsOpen := false` models the readyState change of the close event), the
ping interval is cleared if armed, then — only when `autoReconnect` is set —
`connect(this.autoReconnect, this.port)` is re-invoked (marked by the
`connectInvoked` trace effect), and finally the disconnect event is emitted. -/
def closeHandler (s : DeviceState) : DeviceState × List Effect :=
  let s0 : DeviceState := { s with wsOpen := false }
  let step1 : DeviceState × List Effect :=
    if s0.sendPingMessageIntervalHandle then
      ({ s0 with sendPingMessageIntervalHandle := false }, [Effect.clearIntervalPing])
    else (s0, [])
  let step2 : DeviceState × List Effect :=
    if step1.1.autoReconnect then
      let c := connectBody step1.1 step1.1.autoReconnect step1.1.port
      (c.1, Effect.connectInvoked step1.1.autoReconnect step1.1.port :: c.2)
    else (step1.1, [])
  (step2.1, step1.2 ++ step2.2 ++ [Effect.emit Event.disconnect])

/-- The open handler registered by `connect`: emit the connected event and
arm the repeating ping interval timer. -/
def openHandler (s : DeviceState) : DeviceState × List Effect :=
  ({ s with wsOpen := true, sendPingMessageIntervalHandle := true },
   [Effect.emit Event.connected, Effect.setIntervalPing])

/-- One tick of the repeating ping interval: when the websocket is open,
arm the ping-reply watchdog and send a PING frame. -/
def pingIntervalTick (s : DeviceState) : DeviceState × List Effect :=
  if s.wsPresent ∧ s.wsOpen then
    let s1 : DeviceState := { s with pingReplyTimeoutHandle := true }
    (s1, Effect.setTimeoutWatchdog :: sendPing s1)
  else (s, [])

/-- The ping-reply watchdog callback: emit the broken-connection error,
then — if a websocket client exists — terminate it and clear the handle. -/
def pingWatchdogCallback (s : DeviceState) : DeviceState × List Effect :=
  if s.wsPresent then
    ({ s with pingReplyTimeoutHandle := false },
     [Effect.emit (Event.error (watchdogMsg s)), Effect.wsTerminate])
  else
    (s, [Effect.emit (Event.error (watchdogMsg s))])

/-- `RemootioDevice.prototype.disconnect`: if a websocket client exists,
clear `autoReconnect` and close the socket; no timer is touched here. -/
def disconnect (s : DeviceState) : DeviceState × List Effect :=
  if s.wsPresent then
    ({ s with autoReconnect := false }, [Effect.wsClose])
  else (s, [])

/-- Lines 339 to 357 of the implementation: the response block of the
ENCRYPTED-frame handler.  When a `response` member with a defined id is
present, advance `lastActionId` only if the echoed id is strictly greater
or wraps from 0x7fffffff to 0; then, independently of that acceptance
test, emit the authenticated event when the response type is QUERY and the
handshake flag is set, clearing the flag. -/
def responseBranch (s : DeviceState) (p : DecryptedPayload) : DeviceState × List Effect :=
  match p.response with
  | none => (s, [])
  | some r =>
    match r.id with
    | none => (s, [])
    | some rid =>
      let step1 : DeviceState × List Effect :=
        match s.lastActionId with
        | some c =>
          if c < rid ∨ (rid = 0 ∧ c = 0x7fffffff) then
            ({ s with lastActionId := some rid }, [])
          else (s, [])
        | none => (s, [Effect.warn lastActionIdUndefinedMsg])
      if r.type = some ActionType.QUERY ∧
          step1.1.waitingForAuthenticationQueryActionResponse = some true then
        ({ step1.1 with waitingForAuthenticationQueryActionResponse := some false },
         step1.2 ++ [Effect.emit Event.authenticated])
      else (step1.1, step1.2)

/-- Lines 331 to 338 of the implementation: the challenge block of the
ENCRYPTED-frame handler.  Install the session key and the initial action
id, set the handshake flag, and immediately send the confirmation QUERY. -/
def challengeBranch (s : DeviceState) (p : DecryptedPayload) : DeviceState × List Effect :=
  match p.challenge with
  | none => (s, [])
  | some ch =>
    let sC : DeviceState := { s with
      apiSessionKey := some ch.sessionKey
      lastActionId := some ch.initialActionId
      waitingForAuthenticationQueryActionResponse := some true }
    (sC, sendQuery sC)

/-- Lines 325 to 361 of the implementation: handling of an ENCRYPTED frame
given the outcome of `apicrypto.remootioApiDecryptEncrypedFrame` (an
external module; its result is a parameter here).  The incomingmessage
event is emitted first; on decrypt failure an error event follows; on
success the challenge block runs before the response block (two
independent `in` tests on the same payload). -/
def handleEncrypted (s : DeviceState) (dp : Option DecryptedPayload) : DeviceState × List Effect :=
  match dp with
  | none =>
    (s, [Effect.emit Event.incomingmessage, Effect.emit (Event.error decryptFailedMsg)])
  | some p =>
    let cRes := challengeBranch s p
    let rRes := responseBranch cRes.1 p
    (rRes.1, Effect.emit Event.incomingmessage :: (cRes.2 ++ rRes.2))

/-- Lines 320 to 323 of the implementation: any successfully parsed inbound
message clears the armed ping-reply watchdog. -/
def clearPingReplyTimeout (s : DeviceState) : DeviceState × List Effect :=
  if s.pingReplyTimeoutHandle then
    ({ s with pingReplyTimeoutHandle := false }, [Effect.clearTimeoutWatchdog])
  else (s, [])

/-- Outcome of `JSON.parse` plus the ENCRYPTED type test on an inbound
transport message: not parseable at all, parseable but not an ENCRYPTED
frame (any other or missing `type`, including unknown schemas), or an
ENCRYPTED frame carrying a decryption outcome. -/
inductive InboundMsg where
  | notJson
  | plainJson
  | encryptedFrame (decryptedPayload : Option DecryptedPayload)
  deriving DecidableEq

/-- The message handler registered by `connect`.  `JSON.parse` failure goes
to the catch clause, which only emits an error event; any parsed message
first clears the watchdog; non-ENCRYPTED messages are surfaced unchanged
through incomingmessage; ENCRYPTED messages go to `handleEncrypted`. -/
def onMessage (s : DeviceState) (m : InboundMsg) : DeviceState × List Effect :=
  match m with
  | InboundMsg.notJson => (s, [Effect.emit (Event.error parseErrorMsg)])
  | InboundMsg.plainJson =>
    let c := clearPingReplyTimeout s
    (c.1, c.2 ++ [Effect.emit Event.incomingmessage])
  | InboundMsg.encryptedFrame dp =>
    let c := clearPingReplyTimeout s
    let h := handleEncrypted c.1 dp
    (h.1, c.2 ++ h.2)

/-- Getter `isConnected`. -/
def isConnected (s : DeviceState) : Bool :=
  if s.wsPresent ∧ s.wsOpen then true else false

/-- Getter `theLastActionId`. -/
def theLastActionId (s : DeviceState) : Option Nat :=
  s.lastActionId

/-- Getter `isAuthenticated`: websocket client present and open, and the
session key defined. -/
def isAuthenticated (s : DeviceState) : Bool :=
  if s.wsPresent ∧ s.wsOpen then
    if s.apiSessionKey.isSome then true else false
  else false

/-- Modelled from the spec: the `apicrypto` module is required by the
implementation (`require("./apicrypto")`) but its source is not under src;
these definitions model the section 4.2 codec contract.  An encrypted
frame carries an opaque ciphertext blob plus integrity metadata; here the
blob is modelled abstractly as the plaintext sealed together with the key
material it was encrypted under. -/
structure EncryptedFrameModel where
  sealedPayload : String
  sealedSecretKey : String
  sealedAuthKey : String
  sealedSessionKey : Option String
  deriving DecidableEq

/-- Modelled from the spec: `apicrypto.remootioApiConstructEncrypedFrame`
(encrypt).  A pure function of the payload and the key triple. -/
def remootioApiConstructEncrypedFrame (payload apiSecretKey apiAuthKey : String)
    (apiSessionKey : Option String) : EncryptedFrameModel :=
  EncryptedFrameModel.mk payload apiSecretKey apiAuthKey apiSessionKey

/-- Modelled from the spec: `apicrypto.remootioApiDecryptEncrypedFrame`
(verify and decrypt).  Integrity is verified before any payload is
returned: decryption under key material other than the one the frame was
sealed with yields the distinguished failure value `none`, never partial
data. -/
def remootioApiDecryptEncrypedFrame (f : EncryptedFrameModel)
    (apiSecretKey apiAuthKey : String) (apiSessionKey : Option String) : Option String :=
  if f.sealedSecretKey = apiSecretKey ∧ f.sealedAuthKey = apiAuthKey ∧
      f.sealedSessionKey = apiSessionKey then
    some f.sealedPayload
  else none

/-- Does an effect list emit the given event? -/
def emitsEvent (effs : List Effect) (e : Event) : Bool :=
  effs.any fun eff =>
    match eff with
    | Effect.emit ev => decide (ev = e)
    | _ => false

/-- Does an effect list emit the authenticated event? -/
def emitsAuthenticated (effs : List Effect) : Bool :=
  emitsEvent effs Event.authenticated

/-- Does an effect list emit any error event? -/
def emitsError (effs : List Effect) : Bool :=
  effs.any fun eff =>
    match eff with
    | Effect.emit (Event.error _) => true
    | _ => false

/-- Does an effect list write any frame (plaintext or encrypted) to the transport? -/
def writesFrame (effs : List Effect) : Bool :=
  effs.any fun eff =>
    match eff with
    | Effect.wsSendPlain _ => true
    | Effect.wsSendEncrypted _ => true
    | _ => false

/-- Does an effect list produce a console warning? -/
def warnsLocally (effs : List Effect) : Bool :=
  effs.any fun eff =>
    match eff with
    | Effect.warn _ => true
    | _ => false

/-- Does an effect list close or terminate the transport? -/
def closesConnection (effs : List Effect) : Bool :=
  effs.any fun eff =>
    match eff with
    | Effect.wsTerminate => true
    | Effect.wsClose => true
    | _ => false

/-- Does an effect list cancel the ping-reply watchdog timer? -/
def cancelsWatchdogTimer (effs : List Effect) : Bool :=
  effs.any fun eff =>
    match eff with
    | Effect.clearTimeoutWatchdog => true
    | _ => false

/-- The value of the handshake flag after the challenge block of
`handleEncrypted` has run on payload `p`. -/
def waitingAfterChallenge (s : DeviceState) (p : DecryptedPayload) : Option Bool :=
  match p.challenge with
  | some _ => some true
  | none => s.waitingForAuthenticationQueryActionResponse

/-- Characterisation of when processing a decrypted payload emits the
authenticated event: a response member with a defined id, response type
QUERY, and the handshake flag set (as left by any challenge member of the
same payload).  No condition on the echoed id value appears. -/
def authEmitCond (s : DeviceState) (dp : Option DecryptedPayload) : Bool :=
  match dp with
  | none => false
  | some p =>
    match p.response with
    | none => false
    | some r =>
      match r.id with
      | none => false
      | some _ =>
        decide (r.type = some ActionType.QUERY ∧ waitingAfterChallenge s p = some true)

/-- Example 64-hex-digit key string. -/
def exKeyHex : String := "0123456789abcdef0123456789abcdef0123456789abcdef0123456789abcdef"

/-- Example device IP. -/
def exIp : String := "192.168.1.155"

/-- Example session key delivered by a challenge. -/
def exSessionKey : String := "sessionKeyFromChallenge"

/-- Example connected, authenticated device state: websocket open, session
key installed, last confirmed action id 6, ping interval and watchdog both
armed, handshake flag still set, autoReconnect off. -/
def baseState : DeviceState where
  apiSecretKey := exKeyHex
  apiAuthKey := exKeyHex
  deviceIp := exIp
  wsPresent := true
  wsOpen := true
  apiSessionKey := some exSessionKey
  lastActionId := some 6
  autoReconnect := false
  port := 8080
  sendPingMessageEveryXMs := 60000
  sendPingMessageIntervalHandle := true
  pingReplyTimeoutXMs := 30000
  pingReplyTimeoutHandle := true
  waitingForAuthenticationQueryActionResponse := some true

/-- Example payload: a response echoing the stale id 3 (the tracked counter
in `baseState` is already 6) with type QUERY. -/
def stalePayload : DecryptedPayload where
  challenge := none
  response := some (ResponseData.mk (some 3) (some ActionType.QUERY))

/-- Example payload: a challenge delivering a session key and initial action id 5. -/
def challengePayload : DecryptedPayload where
  challenge := some (ChallengeData.mk exSessionKey 5)
  response := none

/-- Example state for reconnect scenarios: autoReconnect enabled. -/
def reconnectState : DeviceState :=
  { baseState with autoReconnect := true }

/-- Example state with the websocket not open. -/
def closedWsState : DeviceState :=
  { baseState with wsOpen := false }

/-- Example state with no session key. -/
def noKeyState : DeviceState :=
  { baseState with apiSessionKey := none }

/-- Example state with no known last action id. -/
def noActionIdState : DeviceState :=
  { baseState with lastActionId := none }

/-- Example connected but not yet authenticated state: open websocket, no
session key, no action id, handshake flag still false. -/
def preAuthState : DeviceState :=
  { baseState with
    apiSessionKey := none
    lastActionId := none
    waitingForAuthenticationQueryActionResponse := some false }

/-- Example action payload. -/
def queryActionEx : RemootioAction :=
  RemootioAction.mk ActionType.QUERY 7 none

/-- Example HELLO frame. -/
def helloFrameEx : SentFrame :=
  SentFrame.mk helloFrameType

/-- Example challenge data delivering initial action id 5. -/
def challengeEx : ChallengeData :=
  ChallengeData.mk exSessionKey 5

/-- Example challenge-only decrypted payload built from `challengeEx`. -/
def challengeOnlyPayload : DecryptedPayload :=
  DecryptedPayload.mk (some challengeEx) none

/-- The challenge block leaves the counter update of the response block a
clean target: with no challenge member the block is the identity. -/
theorem challengeBranch_none (s : DeviceState) (p : DecryptedPayload)
    (h : p.challenge = none) : challengeBranch s p = (s, []) := by
  simp [challengeBranch, h]

/-- The state part of the response block updates `lastActionId` exactly by
the acceptance rule of lines 342 to 346. -/
theorem responseBranch_lastActionId (s : DeviceState) (p : DecryptedPayload)
    (r : ResponseData) (rid c : Nat)
    (hr : p.response = some r) (hid : r.id = some rid) (hc : s.lastActionId = some c) :
    (responseBranch s p).1.lastActionId =
      some (if c < rid ∨ (rid = 0 ∧ c = 0x7fffffff) then rid else c) := by
  simp only [responseBranch, hr, hid, hc]
  by_cases hcond : c < rid ∨ (rid = 0 ∧ c = 0x7fffffff) <;>
    simp only [hcond, if_true, if_false] <;> split <;> simp [hc]

/-- Claim C1: for every decrypted action-response payload carrying a defined
echoed id `rid`, when the tracked counter `lastActionId` holds value `c`,
processing the response updates `lastActionId` to `rid` if and only if
`rid` is strictly greater than `c` or (`rid = 0` and `c = 0x7FFFFFFF`); in
every other case `lastActionId` remains `c`, so a stale or duplicate
response never moves the counter backward. -/
theorem counter_never_moves_backward (s : DeviceState) (p : DecryptedPayload)
    (r : ResponseData) (rid c : Nat)
    (hch : p.challenge = none) (hr : p.response = some r) (hid : r.id = some rid)
    (hc : s.lastActionId = some c) :
    (handleEncrypted s (some p)).1.lastActionId =
      some (if c < rid ∨ (rid = 0 ∧ c = 0x7fffffff) then rid else c) := by
  have hcb := challengeBranch_none s p hch
  simp only [handleEncrypted, hcb]
  exact responseBranch_lastActionId s p r rid c hr hid hc

/-- Witness for C1: the spec scenario — a response echoing id 3 arrives
while the counter is already 6; the counter stays 6. -/
theorem counter_never_moves_backward_witness :
    (handleEncrypted baseState (some stalePayload)).1.lastActionId =
      some (if 6 < 3 ∨ (3 = 0 ∧ 6 = 0x7fffffff) then 3 else 6) :=
  counter_never_moves_backward baseState stalePayload
    (ResponseData.mk (some 3) (some ActionType.QUERY)) 3 6 rfl rfl rfl rfl

/-- Iterating the action-id successor from 0 lands on the iteration count
modulo 0x7FFFFFFF. -/
theorem nextActionId_iterate (k : Nat) :
    Nat.iterate nextActionId k 0 = k % 0x7fffffff := by
  induction k with
  | zero => simp
  | succ n ih =>
    rw [Function.iterate_succ_apply', ih, nextActionId]
    omega

/-- Counterexample for C5: applying the successor 0x7FFFFFFF + 1 times from
0 yields 1, not 0 — the successor `(c + 1) % 0x7FFFFFFF` has period
0x7FFFFFFF, not 0x7FFFFFFF + 1. -/
theorem nextActionId_iterate_overshoot :
    ¬ Nat.iterate nextActionId (0x7fffffff + 1) 0 = 0 := by
  rw [nextActionId_iterate]
  omega

/-- Claim C5 (amended): applying the action-id successor
`nextActionId c = (c + 1) % 0x7FFFFFFF` exactly 0x7FFFFFFF times starting
from counter 0 returns to 0 (wraparound law with the correct period). -/
theorem nextActionId_wraparound :
    Nat.iterate nextActionId 0x7fffffff 0 = 0 := by
  rw [nextActionId_iterate]

/-- Unfolding equation for `handleEncrypted` on a successfully decrypted payload. -/
theorem handleEncrypted_some (s : DeviceState) (p : DecryptedPayload) :
    handleEncrypted s (some p) =
      ((responseBranch (challengeBranch s p).1 p).1,
       Effect.emit Event.incomingmessage ::
         ((challengeBranch s p).2 ++ (responseBranch (challengeBranch s p).1 p).2)) := rfl

/-- `sendFrame` never emits the authenticated event. -/
theorem sendFrame_no_emit_auth (s : DeviceState) (f : SentFrame) :
    emitsAuthenticated (sendFrame s f) = false := by
  unfold sendFrame
  split <;> simp [emitsAuthenticated, emitsEvent]

/-- `sendEncryptedFrame` never emits the authenticated event. -/
theorem sendEncryptedFrame_no_emit_auth (s : DeviceState) (a : RemootioAction) :
    emitsAuthenticated (sendEncryptedFrame s a) = false := by
  unfold sendEncryptedFrame
  split
  · split <;> simp [emitsAuthenticated, emitsEvent]
  · simp [emitsAuthenticated, emitsEvent]

/-- `sendQuery` never emits the authenticated event. -/
theorem sendQuery_no_emit_auth (s : DeviceState) :
    emitsAuthenticated (sendQuery s) = false := by
  unfold sendQuery
  split
  · exact sendEncryptedFrame_no_emit_auth _ _
  · simp [emitsAuthenticated, emitsEvent]

/-- The challenge block never emits the authenticated event. -/
theorem challengeBranch_no_emit_auth (s : DeviceState) (p : DecryptedPayload) :
    emitsAuthenticated (challengeBranch s p).2 = false := by
  cases hp : p.challenge with
  | none => simp [challengeBranch, hp, emitsAuthenticated, emitsEvent]
  | some ch =>
    simp only [challengeBranch, hp]
    exact sendQuery_no_emit_auth _

/-- The challenge block leaves the handshake flag exactly as
`waitingAfterChallenge` describes. -/
theorem challengeBranch_waiting (s : DeviceState) (p : DecryptedPayload) :
    (challengeBranch s p).1.waitingForAuthenticationQueryActionResponse =
      waitingAfterChallenge s p := by
  cases hp : p.challenge <;> simp [challengeBranch, waitingAfterChallenge, hp]

/-- The response block emits the authenticated event exactly when a
response member with a defined id is present, its type is QUERY, and the
handshake flag is set — independently of the echoed id value. -/
theorem responseBranch_auth (s : DeviceState) (p : DecryptedPayload) :
    emitsAuthenticated (responseBranch s p).2 =
      (match p.response with
       | none => false
       | some r =>
         match r.id with
         | none => false
         | some _ =>
           decide (r.type = some ActionType.QUERY ∧
             s.waitingForAuthenticationQueryActionResponse = some true)) := by
  cases hp : p.response with
  | none => simp [responseBranch, hp, emitsAuthenticated, emitsEvent]
  | some r =>
    cases hid : r.id with
    | none => simp [responseBranch, hp, hid, emitsAuthenticated, emitsEvent]
    | some rid =>
      simp only [responseBranch, hp, hid]
      cases hc : s.lastActionId with
      | none =>
        simp only [hc]
        split <;> simp_all [emitsAuthenticated, emitsEvent]
      | some c =>
        simp only [hc]
        by_cases hcond : c < rid ∨ (rid = 0 ∧ c = 0x7fffffff) <;>
          simp only [hcond, if_true, if_false] <;>
            split <;> simp_all [emitsAuthenticated, emitsEvent]

/-- When the response block emits the authenticated event it also clears
the handshake flag. -/
theorem responseBranch_auth_clears (s : DeviceState) (p : DecryptedPayload)
    (h : emitsAuthenticated (responseBranch s p).2 = true) :
    (responseBranch s p).1.waitingForAuthenticationQueryActionResponse = some false := by
  cases hp : p.response with
  | none => simp_all [responseBranch, hp, emitsAuthenticated, emitsEvent]
  | some r =>
    cases hid : r.id with
    | none => simp_all [responseBranch, hp, hid, emitsAuthenticated, emitsEvent]
    | some rid =>
      simp only [responseBranch, hp, hid] at h ⊢
      cases hc : s.lastActionId with
      | none =>
        simp only [hc] at h ⊢
        split at h <;> simp_all [emitsAuthenticated, emitsEvent]
      | some c =>
        simp only [hc] at h ⊢
        by_cases hcond : c < rid ∨ (rid = 0 ∧ c = 0x7fffffff) <;>
          simp only [hcond, if_true, if_false] at h ⊢ <;>
            split at h <;> simp_all [emitsAuthenticated, emitsEvent]

/-- Counterexample for C2: a response echoing the stale id 3 (the tracked
counter is already 6, so the acceptance rule rejects the id and the
counter stays 6) with type QUERY while the handshake flag is set does emit
the authenticated event. -/
theorem authenticated_despite_stale_id :
    emitsAuthenticated (handleEncrypted baseState (some stalePayload)).2 = true ∧
    (handleEncrypted baseState (some stalePayload)).1.lastActionId = some 6 := by
  constructor <;> rfl

/-- Claim C2 (amended): the authenticated event is emitted exactly when an
action-response with a defined echoed id arrives whose type is QUERY while
the handshake flag is set (as left by any challenge member of the same
payload); the echoed id is not required to satisfy the acceptance rule.
Emitting the event clears the flag. -/
theorem authenticated_emit_rule (s : DeviceState) (dp : Option DecryptedPayload) :
    emitsAuthenticated (handleEncrypted s dp).2 = authEmitCond s dp ∧
    (authEmitCond s dp = true →
      (handleEncrypted s dp).1.waitingForAuthenticationQueryActionResponse = some false) := by
  cases dp with
  | none => simp [handleEncrypted, authEmitCond, emitsAuthenticated, emitsEvent]
  | some p =>
    have hmain : emitsAuthenticated (handleEncrypted s (some p)).2 = authEmitCond s (some p) := by
      rw [handleEncrypted_some]
      have h1 : emitsAuthenticated
          (Effect.emit Event.incomingmessage ::
            ((challengeBranch s p).2 ++ (responseBranch (challengeBranch s p).1 p).2)) =
          (emitsAuthenticated (challengeBranch s p).2 ||
            emitsAuthenticated (responseBranch (challengeBranch s p).1 p).2) := by
        simp [emitsAuthenticated, emitsEvent, List.any_cons, List.any_append]
      rw [h1, challengeBranch_no_emit_auth, responseBranch_auth, Bool.false_or]
      unfold authEmitCond
      rw [challengeBranch_waiting]
    refine ⟨hmain, fun hcond => ?_⟩
    have hauth : emitsAuthenticated (responseBranch (challengeBranch s p).1 p).2 = true := by
      have := hmain
      rw [handleEncrypted_some] at this
      simp only [emitsAuthenticated, emitsEvent, List.any_cons, List.any_append] at this
      rw [hcond] at this
      have hcb := challengeBranch_no_emit_auth s p
      simp only [emitsAuthenticated, emitsEvent] at hcb
      simp only [hcb] at this
      simpa [emitsAuthenticated, emitsEvent] using this
    rw [handleEncrypted_some]
    exact responseBranch_auth_clears _ _ hauth

/-- Witness for C2 (amended): at the concrete stale-id scenario the emit
condition holds and the flag ends up cleared. -/
theorem authenticated_emit_rule_witness :
    emitsAuthenticated (handleEncrypted baseState (some stalePayload)).2 =
      authEmitCond baseState (some stalePayload) ∧
    (handleEncrypted baseState (some stalePayload)).1.waitingForAuthenticationQueryActionResponse =
      some false :=
  ⟨(authenticated_emit_rule baseState (some stalePayload)).1,
   (authenticated_emit_rule baseState (some stalePayload)).2 (by decide)⟩

/-- Counterexample for C3: on a transport close with autoReconnect
disabled, the session key, the action counter and the handshake flag all
survive the close handler unchanged. -/
theorem close_keeps_session_without_reconnect :
    baseState.autoReconnect = false ∧
    (closeHandler baseState).1.apiSessionKey = some exSessionKey ∧
    (closeHandler baseState).1.lastActionId = some 6 ∧
    (closeHandler baseState).1.waitingForAuthenticationQueryActionResponse = some true := by
  refine ⟨rfl, rfl, rfl, rfl⟩

/-- Claim C3 (amended): the session key, the action counter and the
handshake flag are cleared at the start of every connect call, hence on
every auto-reconnect cycle (the close handler re-invokes connect when
autoReconnect is set); a close with autoReconnect disabled does not itself
clear them — they persist until the next connect call. -/
theorem session_reset_on_reconnect_cycle (s t : DeviceState) (ar : Bool) (p : Nat)
    (h : s.autoReconnect = true) :
    (closeHandler s).1.apiSessionKey = none ∧
    (closeHandler s).1.lastActionId = none ∧
    (closeHandler s).1.waitingForAuthenticationQueryActionResponse = none ∧
    (connectBody t ar p).1.apiSessionKey = none ∧
    (connectBody t ar p).1.lastActionId = none ∧
    (connectBody t ar p).1.waitingForAuthenticationQueryActionResponse = none := by
  by_cases hi : s.sendPingMessageIntervalHandle <;>
    by_cases hq : s.port ≠ 0 <;>
      by_cases hp : p ≠ 0 <;>
        cases ar <;>
          simp [closeHandler, connectBody, h, hi, hq, hp]

/-- Witness for C3 (amended): the concrete auto-reconnecting state. -/
theorem session_reset_on_reconnect_cycle_witness :
    (closeHandler reconnectState).1.apiSessionKey = none ∧
    (closeHandler reconnectState).1.lastActionId = none ∧
    (closeHandler reconnectState).1.waitingForAuthenticationQueryActionResponse = none ∧
    (connectBody baseState true 8080).1.apiSessionKey = none ∧
    (connectBody baseState true 8080).1.lastActionId = none ∧
    (connectBody baseState true 8080).1.waitingForAuthenticationQueryActionResponse = none :=
  session_reset_on_reconnect_cycle reconnectState baseState true 8080 rfl

/-- Counterexample for C4: a close while the ping-reply watchdog is armed
leaves the watchdog armed and emits no cancel for it. -/
theorem close_leaves_watchdog_armed :
    baseState.pingReplyTimeoutHandle = true ∧
    (closeHandler baseState).1.pingReplyTimeoutHandle = true ∧
    cancelsWatchdogTimer (closeHandler baseState).2 = false := by
  refine ⟨rfl, rfl, rfl⟩

/-- Claim C4 (amended): the close handler cancels the repeating ping
interval timer, but it does not cancel a currently armed ping-reply
watchdog (the watchdog flag is passed through untouched and no cancel
effect for it is issued); disconnect itself cancels no timer at all — it
only disables autoReconnect and closes the socket. -/
theorem close_timer_teardown (s t : DeviceState) :
    (closeHandler s).1.sendPingMessageIntervalHandle = false ∧
    (closeHandler s).1.pingReplyTimeoutHandle = s.pingReplyTimeoutHandle ∧
    cancelsWatchdogTimer (closeHandler s).2 = false ∧
    (disconnect t).1.sendPingMessageIntervalHandle = t.sendPingMessageIntervalHandle ∧
    (disconnect t).1.pingReplyTimeoutHandle = t.pingReplyTimeoutHandle := by
  by_cases hi : s.sendPingMessageIntervalHandle <;>
    by_cases ha : s.autoReconnect <;>
      by_cases hq : s.port ≠ 0 <;>
        by_cases hw : t.wsPresent <;>
          simp [closeHandler, connectBody, disconnect, cancelsWatchdogTimer,
            hi, ha, hq, hw]

/-- Claim C6: calling `sendFrame` while the websocket is not open, calling
`sendEncryptedFrame` without a session key, and calling an action helper
without a known `lastActionId`, each write no frame to the transport and
only produce a local warning (and, being total functions here, never throw
to the caller). -/
theorem offline_send_is_noop (s t u : DeviceState) (f : SentFrame) (a : RemootioAction) :
    (¬ (s.wsPresent = true ∧ s.wsOpen = true) →
      writesFrame (sendFrame s f) = false ∧ warnsLocally (sendFrame s f) = true) ∧
    (t.apiSessionKey = none →
      writesFrame (sendEncryptedFrame t a) = false ∧
        warnsLocally (sendEncryptedFrame t a) = true) ∧
    (u.lastActionId = none →
      writesFrame (sendQuery u) = false ∧ warnsLocally (sendQuery u) = true) := by
  refine ⟨fun h1 => ?_, fun h2 => ?_, fun h3 => ?_⟩
  · simp [sendFrame, h1, writesFrame, warnsLocally]
  · by_cases hw : t.wsPresent = true ∧ t.wsOpen = true <;>
      simp [sendEncryptedFrame, h2, hw, writesFrame, warnsLocally]
  · simp [sendQuery, h3, writesFrame, warnsLocally]

/-- Witness for C6: concrete closed-socket, missing-key, and missing-id states. -/
theorem offline_send_is_noop_witness :
    writesFrame (sendFrame closedWsState helloFrameEx) = false ∧
    warnsLocally (sendFrame closedWsState helloFrameEx) = true ∧
    writesFrame (sendEncryptedFrame noKeyState queryActionEx) = false ∧
    warnsLocally (sendEncryptedFrame noKeyState queryActionEx) = true ∧
    writesFrame (sendQuery noActionIdState) = false ∧
    warnsLocally (sendQuery noActionIdState) = true := by
  have h := offline_send_is_noop closedWsState noKeyState noActionIdState
    helloFrameEx queryActionEx
  exact ⟨(h.1 (by decide)).1, (h.1 (by decide)).2, (h.2.1 rfl).1, (h.2.1 rfl).2,
    (h.2.2 rfl).1, (h.2.2 rfl).2⟩

/-- Counterexample for C7: valid JSON that matches no known frame schema
(any parsed message whose type is not ENCRYPTED) produces no error event —
it is surfaced through incomingmessage — and it is not free of state
effects either: it clears the armed ping-reply watchdog. -/
theorem schema_mismatch_not_errored :
    emitsError (onMessage baseState InboundMsg.plainJson).2 = false ∧
    emitsEvent (onMessage baseState InboundMsg.plainJson).2 Event.incomingmessage = true ∧
    baseState.pingReplyTimeoutHandle = true ∧
    (onMessage baseState InboundMsg.plainJson).1.pingReplyTimeoutHandle = false := by
  refine ⟨rfl, rfl, rfl, rfl⟩

/-- Claim C7 (amended): an inbound message that is not parseable as JSON
yields a local error event, is dropped with no state change, and does not
close the connection.  Parseable JSON that is not an ENCRYPTED frame —
including JSON matching no known schema — is surfaced via incomingmessage
without an error event; the session fields are untouched and the
connection stays open, though any parseable message clears an armed
ping-reply watchdog. -/
theorem malformed_message_handling (s : DeviceState) :
    onMessage s InboundMsg.notJson = (s, [Effect.emit (Event.error parseErrorMsg)]) ∧
    closesConnection (onMessage s InboundMsg.notJson).2 = false ∧
    emitsError (onMessage s InboundMsg.plainJson).2 = false ∧
    closesConnection (onMessage s InboundMsg.plainJson).2 = false ∧
    emitsEvent (onMessage s InboundMsg.plainJson).2 Event.incomingmessage = true ∧
    (onMessage s InboundMsg.plainJson).1.apiSessionKey = s.apiSessionKey ∧
    (onMessage s InboundMsg.plainJson).1.lastActionId = s.lastActionId ∧
    (onMessage s InboundMsg.plainJson).1.waitingForAuthenticationQueryActionResponse =
      s.waitingForAuthenticationQueryActionResponse := by
  by_cases hw : s.pingReplyTimeoutHandle <;>
    simp [onMessage, clearPingReplyTimeout, hw, closesConnection, emitsError, emitsEvent]

/-- Claim C8: for all payloads and key triples, decrypting the result of
encrypting under the same keys yields the payload again; the codec is a
pure function of its inputs (it is a plain function of its arguments with
no state parameter, so determinism holds by construction). -/
theorem codec_roundtrip (payload apiSecretKey apiAuthKey : String)
    (apiSessionKey : Option String) :
    remootioApiDecryptEncrypedFrame
      (remootioApiConstructEncrypedFrame payload apiSecretKey apiAuthKey apiSessionKey)
      apiSecretKey apiAuthKey apiSessionKey = some payload := by
  simp [remootioApiDecryptEncrypedFrame, remootioApiConstructEncrypedFrame]

/-- Claim C9: when the ping-reply watchdog expires (it only does while
still armed, so no inbound frame has been observed since the probe — any
parsed inbound message would have cleared it), an error event describing
the broken connection is emitted and the transport is forcibly terminated;
on the ensuing close with autoReconnect set, connect is re-invoked with
the same port, so a connecting event follows. -/
theorem watchdog_expiry_closes_and_reconnects (s t : DeviceState)
    (h1 : s.wsPresent = true) (h2 : t.autoReconnect = true) :
    (pingWatchdogCallback s).2 =
      [Effect.emit (Event.error (watchdogMsg s)), Effect.wsTerminate] ∧
    closesConnection (pingWatchdogCallback s).2 = true ∧
    (pingWatchdogCallback s).1.pingReplyTimeoutHandle = false ∧
    Effect.connectInvoked true t.port ∈ (closeHandler t).2 ∧
    Effect.emit Event.connecting ∈ (closeHandler t).2 := by
  refine ⟨?_, ?_, ?_, ?_, ?_⟩
  · simp [pingWatchdogCallback, h1]
  · simp [pingWatchdogCallback, h1, closesConnection]
  · simp [pingWatchdogCallback, h1]
  · by_cases hi : t.sendPingMessageIntervalHandle <;>
      simp [closeHandler, connectBody, h2, hi]
  · by_cases hi : t.sendPingMessageIntervalHandle <;>
      simp [closeHandler, connectBody, h2, hi]

/-- Witness for C9: the concrete armed state and the auto-reconnecting state. -/
theorem watchdog_expiry_closes_and_reconnects_witness :
    (pingWatchdogCallback baseState).2 =
      [Effect.emit (Event.error (watchdogMsg baseState)), Effect.wsTerminate] ∧
    closesConnection (pingWatchdogCallback baseState).2 = true ∧
    (pingWatchdogCallback baseState).1.pingReplyTimeoutHandle = false ∧
    Effect.connectInvoked true reconnectState.port ∈ (closeHandler reconnectState).2 ∧
    Effect.emit Event.connecting ∈ (closeHandler reconnectState).2 :=
  watchdog_expiry_closes_and_reconnects baseState reconnectState rfl rfl

/-- Claim C10: the getter `isAuthenticated` returns true exactly when the
websocket client exists, is open, and a session key is stored; hence it
already reports true right after a challenge payload installs the session
key — while the confirmation QUERY is still pending (handshake flag set)
and before any authenticated event has been emitted. -/
theorem isAuthenticated_characterization (s t : DeviceState) (ch : ChallengeData)
    (h1 : t.wsPresent = true) (h2 : t.wsOpen = true) :
    isAuthenticated s = (s.wsPresent && s.wsOpen && s.apiSessionKey.isSome) ∧
    isAuthenticated (handleEncrypted t (some (DecryptedPayload.mk (some ch) none))).1 = true ∧
    (handleEncrypted t
        (some (DecryptedPayload.mk (some ch) none))).1.waitingForAuthenticationQueryActionResponse =
      some true ∧
    emitsAuthenticated (handleEncrypted t (some (DecryptedPayload.mk (some ch) none))).2 =
      false := by
  refine ⟨?_, ?_, ?_, ?_⟩
  · cases hP : s.wsPresent <;> cases hO : s.wsOpen <;> cases hK : s.apiSessionKey <;>
      simp [isAuthenticated, hP, hO, hK]
  · rw [handleEncrypted_some]
    simp [responseBranch, challengeBranch, isAuthenticated, h1, h2]
  · rw [handleEncrypted_some]
    simp [responseBranch, challengeBranch]
  · rw [handleEncrypted_some]
    have hcb := challengeBranch_no_emit_auth t (DecryptedPayload.mk (some ch) none)
    have hrb := responseBranch_auth
      (challengeBranch t (DecryptedPayload.mk (some ch) none)).1
      (DecryptedPayload.mk (some ch) none)
    simp only [emitsAuthenticated, emitsEvent, List.any_cons, List.any_append] at hcb hrb ⊢
    simp [hcb, hrb]

/-- Witness for C10: a pre-authentication open connection receiving the
example challenge. -/
theorem isAuthenticated_characterization_witness :
    isAuthenticated preAuthState =
      (preAuthState.wsPresent && preAuthState.wsOpen && preAuthState.apiSessionKey.isSome) ∧
    isAuthenticated
      (handleEncrypted preAuthState (some (DecryptedPayload.mk (some challengeEx) none))).1 =
      true ∧
    (handleEncrypted preAuthState
        (some (DecryptedPayload.mk
          (some challengeEx) none))).1.waitingForAuthenticationQueryActionResponse =
      some true ∧
    emitsAuthenticated
      (handleEncrypted preAuthState
        (some (DecryptedPayload.mk (some challengeEx) none))).2 = false :=
  isAuthenticated_characterization preAuthState preAuthState challengeEx rfl rfl

end Remootio
